import Mathlib

/-!
Shallow embedding of the Gotham logging middleware
(`src/middleware/logger/src/lib.rs`).

The middleware wraps a request pipeline: if logging at the configured level
is disabled it calls the chain and returns its result untouched; otherwise
it records a start instant, calls the chain, and in the continuation builds
one Common-Log-Format line from the client address, the start timestamp,
method / uri / version borrowed from the state, the response status and its
`ContentLength` header, plus an optional duration suffix, and emits it via
the `log!` macro at the configured level.

External library behaviour that the source relies on is modelled exactly:

* `chrono`: `Utc::now()` instants are points on the microsecond timeline
  (calendar fields kept alongside for `format`); `signed_duration_since`
  is exact subtraction; `num_microseconds` yields `none` when the count
  does not fit a signed 64-bit integer (chrono documents `None` on
  overflow), which makes the `unwrap` on it a panic point.
* Rust `f32` arithmetic: an IEEE-754 binary32 value in the normal range is
  a dyadic rational with a 24-bit significand; `as f32` casts and `f32`
  division round to nearest, ties to even; `Display` with precision 2
  prints the decimal value of the float rounded to two fractional digits
  (ties to even).  This is implemented below on integers only, so every
  concrete evaluation is kernel-computable.
* panics (`unwrap` on `None`) are modelled as an `Except.error` outcome
  carrying which unwrap fired; nothing is logged on that path.
-/

set_option autoImplicit false

namespace GothamLogger

/-- Log severity levels of the `log` crate, as stored in the middleware. -/
inductive Level
  | error
  | warn
  | info
  | debug
  | trace
  deriving DecidableEq

/-- The middleware configuration struct from the source: whether to append
the duration, and the level to log at. -/
structure LoggingMiddleware where
  duration : Bool
  level : Level
  deriving DecidableEq

/-- Source constructor `with_level`: duration reporting defaults to off. -/
def LoggingMiddleware.with_level (level : Level) : LoggingMiddleware :=
  ⟨false, level⟩

/-- Source constructor `with_level_and_duration`. -/
def LoggingMiddleware.with_level_and_duration (level : Level) (duration : Bool) :
    LoggingMiddleware :=
  ⟨duration, level⟩

/-- The request state, as far as the middleware reads it: the client socket
address (absent when no `ClientAddr` was put on the state), and the
`Uri`, `Method` and `HttpVersion` rendered as the strings their `Display`
implementations produce. -/
structure ReqState where
  clientAddr : Option String
  method : String
  uri : String
  version : String
  deriving DecidableEq

/-- The downstream response, as far as the middleware reads it: numeric
status code, optional `ContentLength` header value, and the rest of the
response (body) which the middleware never touches. -/
structure Response where
  status : Nat
  contentLength : Option Nat
  body : String
  deriving DecidableEq

/-- A `Utc` instant: its position on the microsecond timeline (used for
`signed_duration_since`) together with its calendar rendering fields
(used by `format`). -/
structure UtcDateTime where
  year : Nat
  month : Nat
  day : Nat
  hour : Nat
  minute : Nat
  second : Nat
  epochMicros : Int
  deriving DecidableEq

/-- Decimal digit characters, little helper matching `core::fmt` output. -/
def digitChar (n : Nat) : Char :=
  if n = 0 then '0' else if n = 1 then '1' else if n = 2 then '2'
  else if n = 3 then '3' else if n = 4 then '4' else if n = 5 then '5'
  else if n = 6 then '6' else if n = 7 then '7' else if n = 8 then '8'
  else '9'

/-- Fuel-driven digit expansion (most significant first), structurally
recursive so the kernel can evaluate it. -/
def natDigits : Nat → Nat → List Char
  | 0, _ => []
  | fuel + 1, n =>
    if n < 10 then [digitChar n]
    else natDigits fuel (n / 10) ++ [digitChar (n % 10)]

/-- Decimal rendering of a natural number, as Rust `Display` prints it. -/
def natToString (n : Nat) : String :=
  ⟨natDigits (n + 1) n⟩

/-- Decimal rendering of a signed integer, as Rust `Display` prints `i64`. -/
def intToString : Int → String
  | Int.ofNat n => natToString n
  | Int.negSucc n => "-" ++ natToString (n + 1)

/-- Zero-padding to two digits, as chrono zero-padded numeric specifiers do. -/
def pad2 (n : Nat) : String :=
  if n < 10 then "0" ++ natToString n else natToString n

/-- Zero-padding to four digits, for the chrono `%Y` specifier. -/
def pad4 (n : Nat) : String :=
  if n < 10 then "000" ++ natToString n
  else if n < 100 then "00" ++ natToString n
  else if n < 1000 then "0" ++ natToString n
  else natToString n

/-- Month abbreviations for the chrono `%b` specifier. -/
def monthAbbrev (m : Nat) : String :=
  if m = 1 then "Jan" else if m = 2 then "Feb" else if m = 3 then "Mar"
  else if m = 4 then "Apr" else if m = 5 then "May" else if m = 6 then "Jun"
  else if m = 7 then "Jul" else if m = 8 then "Aug" else if m = 9 then "Sep"
  else if m = 10 then "Oct" else if m = 11 then "Nov" else "Dec"

/-- The source's `start_time.format("%d/%b/%Y:%H:%M:%S %z")` on a `Utc`
instant: zero-padded day, month abbreviation, zero-padded year, 24-hour
clock, and the fixed `+0000` offset of `Utc`. -/
def formatClfDate (t : UtcDateTime) : String :=
  pad2 t.day ++ "/" ++ monthAbbrev t.month ++ "/" ++ pad4 t.year ++ ":"
    ++ pad2 t.hour ++ ":" ++ pad2 t.minute ++ ":" ++ pad2 t.second ++ " +0000"

/-! ### Exact model of the `f32` computations in the duration formatter -/

/-- Fuel-driven floor of the base-2 logarithm (`natLog2 0 = 0`). -/
def log2Fuel : Nat → Nat → Nat
  | 0, _ => 0
  | fuel + 1, n => if 2 ≤ n then log2Fuel fuel (n / 2) + 1 else 0

/-- Floor of the base-2 logarithm of a positive natural number. -/
def natLog2 (n : Nat) : Nat :=
  log2Fuel n n

/-- Whether `2 ^ k ≤ num / den`, for positive `num`, `den`. -/
def pow2LE (k : Int) (num den : Int) : Bool :=
  if 0 ≤ k then decide (den * 2 ^ k.toNat ≤ num)
  else decide (den ≤ num * 2 ^ (-k).toNat)

/-- Floor of the base-2 logarithm of the positive rational `num / den`. -/
def floorLog2Rat (num den : Int) : Int :=
  let k0 : Int := (natLog2 num.toNat : Int) - (natLog2 den.toNat : Int)
  if pow2LE k0 num den then k0 else k0 - 1

/-- Round `num / den` (with `den > 0`) to the nearest integer, ties to
even — the IEEE-754 default rounding used by Rust `f32` arithmetic and by
its fixed-precision decimal formatting. -/
def rne (num den : Int) : Int :=
  let fl := Int.fdiv num den
  let r := num - fl * den
  if 2 * r < den then fl
  else if den < 2 * r then fl + 1
  else if Int.emod fl 2 = 0 then fl else fl + 1

/-- A dyadic rational `m * 2 ^ e`: the exact value of an `f32` in the
normal range. -/
structure Dyadic where
  m : Int
  e : Int
  deriving DecidableEq

/-- Round the rational `num / den` (`den > 0`) to the nearest `f32`
(24-bit significand, round to nearest, ties to even).  All values arising
in the middleware are well inside the normal range, so overflow to
infinity and subnormals do not occur. -/
def roundF32 (num den : Int) : Dyadic :=
  if num = 0 then ⟨0, 0⟩
  else if 0 < num then
    let e := floorLog2Rat num den - 23
    let m := if 0 ≤ e then rne num (den * 2 ^ e.toNat)
             else rne (num * 2 ^ (-e).toNat) den
    ⟨m, e⟩
  else
    let e := floorLog2Rat (-num) den - 23
    let m := if 0 ≤ e then rne (-num) (den * 2 ^ e.toNat)
             else rne ((-num) * 2 ^ (-e).toNat) den
    ⟨-m, e⟩

/-- IEEE-correctly-rounded division of the `f32` value `x` by the exactly
representable positive integer `b` (the source divides by the literals
`1000.0` and `1000000.0`, both exact in `f32`). -/
def f32DivInt (x : Dyadic) (b : Int) : Dyadic :=
  if 0 ≤ x.e then roundF32 (x.m * 2 ^ x.e.toNat) b
  else roundF32 x.m (b * 2 ^ (-x.e).toNat)

/-- Rust `i64 as f32`: round the integer to the nearest `f32`. -/
def i64ToF32 (n : Int) : Dyadic :=
  roundF32 n 1

/-- Render `n / 100` with exactly two digits after the decimal point. -/
def decimal2n (n : Int) : String :=
  if n < 0 then
    "-" ++ natToString ((-n).toNat / 100) ++ "." ++ pad2 ((-n).toNat % 100)
  else
    natToString (n.toNat / 100) ++ "." ++ pad2 (n.toNat % 100)

/-- Rust formatting of an `f32` value with precision 2 (the `.2` in the
source's format strings): the exact decimal value of the float, rounded
to two fractional digits, rendered with exactly two digits after the
point. -/
def decimal2 (x : Dyadic) : String :=
  decimal2n
    (if 0 ≤ x.e then x.m * 100 * 2 ^ x.e.toNat
     else rne (x.m * 100) (2 ^ (-x.e).toNat))

/-- The duration rendering of lines 83–89 of the source: microseconds
verbatim below `1000`, else `f32` milliseconds below `1000000`, else `f32`
seconds, each including its leading `" - "` from the `format!` literals. -/
def formatDuration (micros : Int) : String :=
  if micros < 1000 then " - " ++ intToString micros ++ "µs"
  else if micros < 1000000 then
    " - " ++ decimal2 (f32DivInt (i64ToF32 micros) 1000) ++ "ms"
  else
    " - " ++ decimal2 (f32DivInt (i64ToF32 micros) 1000000) ++ "s"

/-! ### The middleware call -/

/-- chrono's `Duration::num_microseconds`: `some` exactly when the count
fits a signed 64-bit integer, `none` on overflow. -/
def numMicroseconds (d : Int) : Option Int :=
  if -(2 ^ 63) ≤ d ∧ d ≤ 2 ^ 63 - 1 then some d else none

/-- Instants that `Utc::now()` can actually produce: chrono `DateTime`
covers calendar years down to `-262143` and up to `262142`, so every
reachable instant is within `8 * 10 ^ 18` microseconds of the epoch
(`8 * 10 ^ 18` µs is about `253500` years), a conservative subset of that
range. -/
def utcReachable (t : Int) : Prop :=
  t.natAbs ≤ 8 * 10 ^ 18

instance (t : Int) : Decidable (utcReachable t) := by
  unfold utcReachable; infer_instance

/-- Which `unwrap` in the continuation fired (a Rust panic). -/
inductive LogPanic
  | missingClientAddr
  | microsOverflow
  | missingContentLength
  deriving DecidableEq

deriving instance DecidableEq for Except

/-- Everything observable about one middleware invocation: the value the
returned future resolves to (or the panic that tore it down), the log
lines emitted through `log!`, and how many times `Utc::now()` ran. -/
structure CallOutcome where
  result : Except LogPanic (ReqState × Response)
  logLines : List String
  clockReads : Nat
  deriving DecidableEq

/-- The interpolation of the source's `log!` format string
`"<ip> - - [<datetime>] \"<method> <uri> <version>\" <status> <length> <duration>"`
— note the literal space between the length and the duration placeholder. -/
def clfLine (ip datetime method uri version : String) (status length : Nat)
    (duration : String) : String :=
  ip ++ " - - [" ++ datetime ++ "] \"" ++ method ++ " " ++ uri ++ " "
    ++ version ++ "\" " ++ natToString status ++ " " ++ natToString length
    ++ " " ++ duration

/-- Lines 93–116 of the source: borrow uri/method/version from the state,
read status, `unwrap` the `ContentLength` header, emit the line, and pass
`(state, response)` on unchanged. -/
def emitPhase (s1 : ReqState) (response : Response) (ip datetime duration : String)
    (reads : Nat) : CallOutcome :=
  match response.contentLength with
  | none => ⟨Except.error LogPanic.missingContentLength, [], reads⟩
  | some len =>
    ⟨Except.ok (s1, response),
     [clfLine ip datetime s1.method s1.uri s1.version response.status len duration],
     reads⟩

/-- `Middleware::call` for `LoggingMiddleware`.  `logEnabled` models the
`log_enabled!` check against the global logger.  `startTime` is what
`Utc::now()` returns at line 60 and `endTime` what it returns at line 77;
`clockReads` counts how many of those reads actually happen.  `chain` is
the downstream pipeline; its resolved `(state, response)` feeds the
logging continuation. -/
def call (self : LoggingMiddleware) (logEnabled : Level → Bool)
    (startTime endTime : UtcDateTime) (state : ReqState)
    (chain : ReqState → ReqState × Response) : CallOutcome :=
  if logEnabled self.level = false then
    ⟨Except.ok (chain state), [], 0⟩
  else
    match chain state with
    | (s1, response) =>
      match s1.clientAddr with
      | none => ⟨Except.error LogPanic.missingClientAddr, [], 1⟩
      | some ip =>
        if self.duration = false then
          emitPhase s1 response ip (formatClfDate startTime) "" 1
        else
          match numMicroseconds (endTime.epochMicros - startTime.epochMicros) with
          | none => ⟨Except.error LogPanic.microsOverflow, [], 2⟩
          | some m =>
            emitPhase s1 response ip (formatClfDate startTime) (formatDuration m) 2

/-! ### Concrete scenarios used to settle the claims -/

/-- A logger gate that reports every level enabled. -/
def alwaysEnabled : Level → Bool := fun _ => true

/-- The request state of the spec's round-trip scenario. -/
def healthState : ReqState :=
  ⟨some "203.0.113.5", "GET", "/health", "HTTP/1.1"⟩

/-- The response of the spec's round-trip scenario. -/
def healthResponse : Response :=
  ⟨200, some 12, "hello health"⟩

/-- A downstream pipeline that answers the round-trip scenario's response
and leaves the state alone. -/
def healthChain : ReqState → ReqState × Response :=
  fun s => (s, healthResponse)

/-- The fixed start instant `10/Oct/2023:13:55:36 +0000` of the round-trip
scenario (`1696946136` seconds after the epoch). -/
def healthStart : UtcDateTime :=
  ⟨2023, 10, 10, 13, 55, 36, 1696946136000000⟩

/-- An end instant 42 microseconds after `healthStart`. -/
def healthEnd42 : UtcDateTime :=
  ⟨2023, 10, 10, 13, 55, 36, 1696946136000042⟩

/-- An end instant 5 microseconds before `healthStart` (a wall clock that
stepped backwards during the request). -/
def healthEndBack5 : UtcDateTime :=
  ⟨2023, 10, 10, 13, 55, 35, 1696946135999995⟩

/-- A request state carrying no client address. -/
def anonState : ReqState :=
  ⟨none, "GET", "/metrics", "HTTP/1.1"⟩

/-- A second request state, for an independent scenario. -/
def postState : ReqState :=
  ⟨some "10.0.0.1", "POST", "/submit", "HTTP/1.1"⟩

/-- The response of the second scenario. -/
def postResponse : Response :=
  ⟨201, some 7, "created"⟩

/-- Downstream pipeline of the second scenario. -/
def postChain : ReqState → ReqState × Response :=
  fun s => (s, postResponse)

/-- Start instant of the second scenario, `01/Jan/2024:00:00:00 +0000`. -/
def newYearStart : UtcDateTime :=
  ⟨2024, 1, 1, 0, 0, 0, 1704067200000000⟩

/-- An extreme but chrono-representable instant, `8 * 10 ^ 18` microseconds
before the epoch (about 253500 years; chrono reaches year -262143).  The
calendar fields are irrelevant on the paths that use it. -/
def farPast : UtcDateTime :=
  ⟨0, 1, 1, 0, 0, 0, -(8 * 10 ^ 18)⟩

/-- An extreme but chrono-representable instant, `8 * 10 ^ 18` microseconds
after the epoch (about 253500 years; chrono reaches year 262142). -/
def farFuture : UtcDateTime :=
  ⟨0, 1, 1, 0, 0, 0, 8 * 10 ^ 18⟩

/-! ### Helper lemmas -/

/-- Appending the empty string is the identity. -/
theorem append_empty_str (s : String) : s ++ "" = s := by
  cases s
  exact congrArg String.mk (List.append_nil _)

/-- Two-digit zero padding really is two characters wide below 100. -/
theorem pad2_length : ∀ n : Nat, n < 100 → (pad2 n).length = 2 := by decide

/-- Every fixed-precision rendering splits as an integer part, a point,
and exactly two fractional digits. -/
theorem decimal2n_shape (n : Int) :
    ∃ s t, decimal2n n = s ++ "." ++ t ∧ t.length = 2 := by
  unfold decimal2n
  by_cases hn : n < 0
  · rw [if_pos hn]
    exact ⟨"-" ++ natToString ((-n).toNat / 100), pad2 ((-n).toNat % 100), rfl,
      pad2_length _ (Nat.mod_lt _ (by norm_num))⟩
  · rw [if_neg hn]
    exact ⟨natToString (n.toNat / 100), pad2 (n.toNat % 100), rfl,
      pad2_length _ (Nat.mod_lt _ (by norm_num))⟩

/-- Unfolding of `call` when the gate is enabled and the downstream result
is known. -/
theorem call_enabled_eq (self : LoggingMiddleware) (logEnabled : Level → Bool)
    (startTime endTime : UtcDateTime) (state : ReqState)
    (chain : ReqState → ReqState × Response) (s1 : ReqState) (r : Response)
    (he : logEnabled self.level = true) (hc : chain state = (s1, r)) :
    call self logEnabled startTime endTime state chain =
      match s1.clientAddr with
      | none => ⟨Except.error LogPanic.missingClientAddr, [], 1⟩
      | some ip =>
        if self.duration = false then
          emitPhase s1 r ip (formatClfDate startTime) "" 1
        else
          match numMicroseconds (endTime.epochMicros - startTime.epochMicros) with
          | none => ⟨Except.error LogPanic.microsOverflow, [], 2⟩
          | some m => emitPhase s1 r ip (formatClfDate startTime) (formatDuration m) 2 := by
  unfold call
  rw [he, hc]
  simp

/-! ### Claims -/

/-- C1, counterexample: for the round-trip input tuple with the duration
disabled and the fixed start timestamp, the assembled line is NOT exactly
`203.0.113.5 - - [10/Oct/2023:13:55:36 +0000] "GET /health HTTP/1.1" 200 12`
— the `log!` format string leaves a character after the content-length
field. -/
theorem c1_line_not_exact :
    (call (LoggingMiddleware.with_level Level.info) alwaysEnabled healthStart
        healthStart healthState healthChain).logLines
      ≠ ["203.0.113.5 - - [10/Oct/2023:13:55:36 +0000] \"GET /health HTTP/1.1\" 200 12"] := by
  decide

/-- C1, amended: for the round-trip input tuple with the duration disabled
and the fixed start timestamp, the assembled line equals, character for
character, the claimed string followed by one trailing space (the literal
separator the format string places before the empty duration field). -/
theorem c1_line_trailing_space :
    (call (LoggingMiddleware.with_level Level.info) alwaysEnabled healthStart
        healthStart healthState healthChain).logLines
      = ["203.0.113.5 - - [10/Oct/2023:13:55:36 +0000] \"GET /health HTTP/1.1\" 200 12 "] := by
  decide

/-- C2, counterexample: a request logged with the duration disabled does
not produce a line that ends immediately after the content-length field —
the emitted line differs from that string. -/
theorem c2_line_not_ending_at_length :
    (call (LoggingMiddleware.with_level Level.warn) alwaysEnabled newYearStart
        newYearStart postState postChain).logLines
      ≠ ["10.0.0.1 - - [01/Jan/2024:00:00:00 +0000] \"POST /submit HTTP/1.1\" 201 7"] := by
  decide

/-- C2, amended: for every request logged with the duration disabled,
regardless of elapsed time, the duration field contributes zero characters
— the emitted line is the interpolation with the empty duration string —
but the line ends with the format string's literal separator space after
the content-length field, not immediately after it. -/
theorem c2_no_duration_suffix (self : LoggingMiddleware) (logEnabled : Level → Bool)
    (startTime endTime : UtcDateTime) (state : ReqState)
    (chain : ReqState → ReqState × Response) (s1 : ReqState) (r : Response)
    (ip : String) (len : Nat)
    (hdur : self.duration = false) (he : logEnabled self.level = true)
    (hc : chain state = (s1, r)) (hip : s1.clientAddr = some ip)
    (hlen : r.contentLength = some len) :
    (call self logEnabled startTime endTime state chain).logLines
      = [clfLine ip (formatClfDate startTime) s1.method s1.uri s1.version r.status len ""]
    ∧ clfLine ip (formatClfDate startTime) s1.method s1.uri s1.version r.status len ""
      = ip ++ " - - [" ++ formatClfDate startTime ++ "] \"" ++ s1.method ++ " "
          ++ s1.uri ++ " " ++ s1.version ++ "\" " ++ natToString r.status ++ " "
          ++ natToString len ++ " " := by
  constructor
  · rw [call_enabled_eq self logEnabled startTime endTime state chain s1 r he hc]
    simp only [hip]
    rw [if_pos hdur]
    unfold emitPhase
    rw [hlen]
  · exact append_empty_str _

/-- C2, witness for the amended statement at the round-trip scenario. -/
theorem c2_no_duration_suffix_witness :
    (call (LoggingMiddleware.with_level Level.info) alwaysEnabled healthStart
        healthStart healthState healthChain).logLines
      = [clfLine "203.0.113.5" (formatClfDate healthStart) "GET" "/health" "HTTP/1.1"
          200 12 ""]
    ∧ clfLine "203.0.113.5" (formatClfDate healthStart) "GET" "/health" "HTTP/1.1" 200 12 ""
      = "203.0.113.5" ++ " - - [" ++ formatClfDate healthStart ++ "] \"" ++ "GET" ++ " "
          ++ "/health" ++ " " ++ "HTTP/1.1" ++ "\" " ++ natToString 200 ++ " "
          ++ natToString 12 ++ " " :=
  c2_no_duration_suffix (LoggingMiddleware.with_level Level.info) alwaysEnabled
    healthStart healthStart healthState healthChain healthState healthResponse
    "203.0.113.5" 12 rfl rfl rfl rfl rfl

/-- C3: while logging at the configured severity is disabled, the
middleware returns exactly the downstream pipeline's output — same state
and response — emits no log line, and never reads the clock. -/
theorem c3_disabled_passthrough (self : LoggingMiddleware) (logEnabled : Level → Bool)
    (startTime endTime : UtcDateTime) (state : ReqState)
    (chain : ReqState → ReqState × Response)
    (hdis : logEnabled self.level = false) :
    call self logEnabled startTime endTime state chain
      = ⟨Except.ok (chain state), [], 0⟩ := by
  unfold call
  rw [hdis]
  simp

/-- C3, witness: the disabled gate at a concrete scenario. -/
theorem c3_disabled_passthrough_witness :
    call (LoggingMiddleware.with_level Level.debug) (fun _ => false) healthStart
        healthStart healthState healthChain
      = ⟨Except.ok (healthChain healthState), [], 0⟩ :=
  c3_disabled_passthrough (LoggingMiddleware.with_level Level.debug) (fun _ => false)
    healthStart healthStart healthState healthChain rfl

/-- C4, counterexample: a request that reaches the gate in the active
state and whose downstream pipeline produces a response can still emit
zero log lines — when the client address is missing, the `unwrap` panics
before the `log!` statement runs. -/
theorem c4_active_zero_lines :
    alwaysEnabled (LoggingMiddleware.with_level Level.info).level = true
    ∧ (call (LoggingMiddleware.with_level Level.info) alwaysEnabled healthStart
        healthStart anonState (fun s => (s, healthResponse))).logLines.length ≠ 1 := by
  exact ⟨rfl, by decide⟩

/-- C4, amended: a request that reaches the gate in the active state and
whose log emission does not panic emits exactly one log line, built from
the downstream response; requests processed with the gate inactive emit
zero lines. -/
theorem c4_one_line_when_active :
    (∀ (self : LoggingMiddleware) (logEnabled : Level → Bool)
        (startTime endTime : UtcDateTime) (state : ReqState)
        (chain : ReqState → ReqState × Response) (p : ReqState × Response),
        logEnabled self.level = true →
        (call self logEnabled startTime endTime state chain).result = Except.ok p →
        (call self logEnabled startTime endTime state chain).logLines.length = 1)
    ∧ (∀ (self : LoggingMiddleware) (logEnabled : Level → Bool)
        (startTime endTime : UtcDateTime) (state : ReqState)
        (chain : ReqState → ReqState × Response),
        logEnabled self.level = false →
        (call self logEnabled startTime endTime state chain).logLines = []) := by
  constructor
  · intro self logEnabled startTime endTime state chain p he hok
    rcases hc : chain state with ⟨s1, r⟩
    rw [call_enabled_eq self logEnabled startTime endTime state chain s1 r he hc] at hok ⊢
    rcases Option.eq_none_or_eq_some s1.clientAddr with ha | ⟨ip, ha⟩
    · simp only [ha] at hok
      exact Except.noConfusion hok
    · simp only [ha] at hok ⊢
      by_cases hd : self.duration = false
      · rw [if_pos hd] at hok ⊢
        unfold emitPhase at hok ⊢
        rcases Option.eq_none_or_eq_some r.contentLength with hl | ⟨len, hl⟩
        · simp only [hl] at hok
          exact Except.noConfusion hok
        · simp only [hl]
          rfl
      · rw [if_neg hd] at hok ⊢
        rcases Option.eq_none_or_eq_some
            (numMicroseconds (endTime.epochMicros - startTime.epochMicros)) with hnm | ⟨m, hnm⟩
        · simp only [hnm] at hok
          exact Except.noConfusion hok
        · simp only [hnm] at hok ⊢
          unfold emitPhase at hok ⊢
          rcases Option.eq_none_or_eq_some r.contentLength with hl | ⟨len, hl⟩
          · simp only [hl] at hok
            exact Except.noConfusion hok
          · simp only [hl]
            rfl
  · intro self logEnabled startTime endTime state chain hdis
    unfold call
    rw [hdis]
    rfl

/-- C4, witness for the amended statement at the round-trip scenario. -/
theorem c4_one_line_when_active_witness :
    (call (LoggingMiddleware.with_level Level.info) alwaysEnabled healthStart
        healthStart healthState healthChain).logLines.length = 1 :=
  c4_one_line_when_active.1 (LoggingMiddleware.with_level Level.info) alwaysEnabled
    healthStart healthStart healthState healthChain (healthState, healthResponse)
    rfl (by decide)

/-- C5: when the gate is active and either the client address is missing
from the state or the response carries no content-length header, the
middleware panics (an `unwrap` on `None`) and emits nothing — no
placeholder line and no silent skip. -/
theorem c5_missing_field_panics (self : LoggingMiddleware) (logEnabled : Level → Bool)
    (startTime endTime : UtcDateTime) (state : ReqState)
    (chain : ReqState → ReqState × Response) (s1 : ReqState) (r : Response)
    (he : logEnabled self.level = true) (hc : chain state = (s1, r))
    (hmiss : s1.clientAddr = none ∨ r.contentLength = none) :
    (∃ e, (call self logEnabled startTime endTime state chain).result = Except.error e)
    ∧ (call self logEnabled startTime endTime state chain).logLines = [] := by
  rw [call_enabled_eq self logEnabled startTime endTime state chain s1 r he hc]
  rcases Option.eq_none_or_eq_some s1.clientAddr with ha | ⟨ip, ha⟩
  · simp only [ha]
    exact ⟨⟨LogPanic.missingClientAddr, rfl⟩, trivial⟩
  · have hlen : r.contentLength = none := by
      rcases hmiss with h | h
      · rw [ha] at h
        exact Option.noConfusion h
      · exact h
    simp only [ha]
    by_cases hd : self.duration = false
    · rw [if_pos hd]
      unfold emitPhase
      rw [hlen]
      exact ⟨⟨LogPanic.missingContentLength, rfl⟩, rfl⟩
    · rw [if_neg hd]
      rcases Option.eq_none_or_eq_some
          (numMicroseconds (endTime.epochMicros - startTime.epochMicros)) with hnm | ⟨m, hnm⟩
      · simp only [hnm]
        exact ⟨⟨LogPanic.microsOverflow, rfl⟩, trivial⟩
      · simp only [hnm]
        unfold emitPhase
        rw [hlen]
        exact ⟨⟨LogPanic.missingContentLength, rfl⟩, rfl⟩

/-- C5, witness: the missing-client-address scenario. -/
theorem c5_missing_field_panics_witness :
    (∃ e, (call (LoggingMiddleware.with_level Level.info) alwaysEnabled healthStart
        healthStart anonState (fun s => (s, healthResponse))).result = Except.error e)
    ∧ (call (LoggingMiddleware.with_level Level.info) alwaysEnabled healthStart
        healthStart anonState (fun s => (s, healthResponse))).logLines = [] :=
  c5_missing_field_panics (LoggingMiddleware.with_level Level.info) alwaysEnabled
    healthStart healthStart anonState (fun s => (s, healthResponse)) anonState
    healthResponse rfl rfl (Or.inl rfl)

/-- C6: the duration formatter is boundary-exact across its three tiers —
999µs renders as `999µs`, 1000µs as `1.00ms`, 999999µs as `1000.00ms`
(the `f32` value nearest 999.999 prints as 1000.00), and 1000000µs as
`1.00s`; below 1000µs the integer microsecond count is printed verbatim,
and the two upper tiers print with exactly two digits after the decimal
point.  Each rendering carries the `" - "` prefix baked into the source's
`format!` literals. -/
theorem c6_duration_tiers :
    formatDuration 999 = " - 999µs"
    ∧ formatDuration 1000 = " - 1.00ms"
    ∧ formatDuration 999999 = " - 1000.00ms"
    ∧ formatDuration 1000000 = " - 1.00s"
    ∧ (∀ m : Int, m < 1000 → formatDuration m = " - " ++ intToString m ++ "µs")
    ∧ (∀ m : Int, 1000 ≤ m → m < 1000000 →
        ∃ s t, formatDuration m = " - " ++ (s ++ "." ++ t) ++ "ms" ∧ t.length = 2)
    ∧ (∀ m : Int, 1000000 ≤ m →
        ∃ s t, formatDuration m = " - " ++ (s ++ "." ++ t) ++ "s" ∧ t.length = 2) := by
  refine ⟨by decide, by decide, by decide, by decide, ?_, ?_, ?_⟩
  · intro m hm
    unfold formatDuration
    rw [if_pos hm]
  · intro m h1 h2
    unfold formatDuration
    rw [if_neg (not_lt.mpr h1), if_pos h2]
    obtain ⟨s, t, hs, ht⟩ := decimal2n_shape
      (if 0 ≤ (f32DivInt (i64ToF32 m) 1000).e then
        (f32DivInt (i64ToF32 m) 1000).m * 100 * 2 ^ (f32DivInt (i64ToF32 m) 1000).e.toNat
       else rne ((f32DivInt (i64ToF32 m) 1000).m * 100)
        (2 ^ (-(f32DivInt (i64ToF32 m) 1000).e).toNat))
    exact ⟨s, t, by unfold decimal2; rw [hs], ht⟩
  · intro m h1
    unfold formatDuration
    rw [if_neg (by omega), if_neg (not_lt.mpr h1)]
    obtain ⟨s, t, hs, ht⟩ := decimal2n_shape
      (if 0 ≤ (f32DivInt (i64ToF32 m) 1000000).e then
        (f32DivInt (i64ToF32 m) 1000000).m * 100 * 2 ^ (f32DivInt (i64ToF32 m) 1000000).e.toNat
       else rne ((f32DivInt (i64ToF32 m) 1000000).m * 100)
        (2 ^ (-(f32DivInt (i64ToF32 m) 1000000).e).toNat))
    exact ⟨s, t, by unfold decimal2; rw [hs], ht⟩

/-- C6, witness: the microsecond tier applied at 500µs. -/
theorem c6_duration_tiers_witness :
    (500 : Int) < 1000 ∧ formatDuration 500 = " - " ++ intToString 500 ++ "µs" :=
  ⟨by decide, c6_duration_tiers.2.2.2.2.1 500 (by decide)⟩

/-- C7: for the round-trip input tuple with the duration enabled and a
measured elapsed time of 42µs, the emitted line equals the line emitted
with the duration disabled with exactly the seven characters ` - 42µs`
appended. -/
theorem c7_duration_appends_seven_chars :
    ∃ base,
      (call (LoggingMiddleware.with_level Level.info) alwaysEnabled healthStart
          healthEnd42 healthState healthChain).logLines = [base]
      ∧ (call (LoggingMiddleware.with_level_and_duration Level.info true) alwaysEnabled
          healthStart healthEnd42 healthState healthChain).logLines = [base ++ " - 42µs"]
      ∧ " - 42µs".length = 7 :=
  ⟨"203.0.113.5 - - [10/Oct/2023:13:55:36 +0000] \"GET /health HTTP/1.1\" 200 12 ",
    by decide, by decide, by decide⟩

/-- C8: when the gate is enabled and the emission path succeeds, the state
and response resolved by the middleware's future are exactly the ones the
downstream pipeline produced — logging alters neither. -/
theorem c8_response_passthrough (self : LoggingMiddleware) (logEnabled : Level → Bool)
    (startTime endTime : UtcDateTime) (state : ReqState)
    (chain : ReqState → ReqState × Response) (s1 s2 : ReqState) (r r2 : Response)
    (he : logEnabled self.level = true) (hc : chain state = (s1, r))
    (hok : (call self logEnabled startTime endTime state chain).result
      = Except.ok (s2, r2)) :
    s2 = s1 ∧ r2 = r := by
  rw [call_enabled_eq self logEnabled startTime endTime state chain s1 r he hc] at hok
  rcases Option.eq_none_or_eq_some s1.clientAddr with ha | ⟨ip, ha⟩
  · simp only [ha] at hok
    exact Except.noConfusion hok
  · simp only [ha] at hok
    by_cases hd : self.duration = false
    · rw [if_pos hd] at hok
      unfold emitPhase at hok
      rcases Option.eq_none_or_eq_some r.contentLength with hl | ⟨len, hl⟩
      · simp only [hl] at hok
        exact Except.noConfusion hok
      · simp only [hl] at hok
        simp only [Except.ok.injEq, Prod.mk.injEq] at hok
        exact ⟨hok.1.symm, hok.2.symm⟩
    · rw [if_neg hd] at hok
      rcases Option.eq_none_or_eq_some
          (numMicroseconds (endTime.epochMicros - startTime.epochMicros)) with hnm | ⟨m, hnm⟩
      · simp only [hnm] at hok
        exact Except.noConfusion hok
      · simp only [hnm] at hok
        unfold emitPhase at hok
        rcases Option.eq_none_or_eq_some r.contentLength with hl | ⟨len, hl⟩
        · simp only [hl] at hok
          exact Except.noConfusion hok
        · simp only [hl] at hok
          simp only [Except.ok.injEq, Prod.mk.injEq] at hok
          exact ⟨hok.1.symm, hok.2.symm⟩

/-- C8, witness at the round-trip scenario. -/
theorem c8_response_passthrough_witness :
    healthState = healthState ∧ healthResponse = healthResponse :=
  c8_response_passthrough (LoggingMiddleware.with_level Level.info) alwaysEnabled
    healthStart healthStart healthState healthChain healthState healthState
    healthResponse healthResponse rfl rfl (by decide)

/-- C9, counterexample: the duration computation can fail.  Both instants
below are reachable by the wall clock (chrono represents them), yet their
difference exceeds the signed 64-bit microsecond range, so
`num_microseconds` returns `None` and the source's `unwrap` on it panics;
the call with the duration enabled aborts instead of logging. -/
theorem c9_duration_can_fail :
    utcReachable (-(8 * 10 ^ 18)) ∧ utcReachable (8 * 10 ^ 18)
    ∧ numMicroseconds (8 * 10 ^ 18 - -(8 * 10 ^ 18)) = none
    ∧ (call (LoggingMiddleware.with_level_and_duration Level.info true) alwaysEnabled
        farPast farFuture healthState healthChain).result
      = Except.error LogPanic.microsOverflow
    ∧ (call (LoggingMiddleware.with_level_and_duration Level.info true) alwaysEnabled
        farPast farFuture healthState healthChain).logLines = [] := by
  refine ⟨by decide, by decide, by decide, by decide, by decide⟩

/-- C9, amended: for every pair of start and end instants whose difference
in microseconds fits a signed 64-bit integer, the duration computation and
its formatting succeed — with the duration enabled, a client address on
the state and a content-length on the response, the call completes without
panic and logs one line carrying the formatted elapsed time. -/
theorem c9_duration_in_range_succeeds (self : LoggingMiddleware)
    (logEnabled : Level → Bool) (startTime endTime : UtcDateTime) (state : ReqState)
    (chain : ReqState → ReqState × Response) (s1 : ReqState) (r : Response)
    (ip : String) (len : Nat)
    (he : logEnabled self.level = true) (hdur : self.duration = true)
    (hc : chain state = (s1, r)) (hip : s1.clientAddr = some ip)
    (hlen : r.contentLength = some len)
    (hlo : -(2 ^ 63) ≤ endTime.epochMicros - startTime.epochMicros)
    (hhi : endTime.epochMicros - startTime.epochMicros ≤ 2 ^ 63 - 1) :
    (call self logEnabled startTime endTime state chain).result = Except.ok (s1, r)
    ∧ (call self logEnabled startTime endTime state chain).logLines
      = [clfLine ip (formatClfDate startTime) s1.method s1.uri s1.version r.status len
          (formatDuration (endTime.epochMicros - startTime.epochMicros))] := by
  have hnm : numMicroseconds (endTime.epochMicros - startTime.epochMicros)
      = some (endTime.epochMicros - startTime.epochMicros) := by
    unfold numMicroseconds
    rw [if_pos ⟨hlo, hhi⟩]
  rw [call_enabled_eq self logEnabled startTime endTime state chain s1 r he hc]
  simp only [hip]
  rw [if_neg (by rw [hdur]; exact Bool.noConfusion)]
  simp only [hnm]
  unfold emitPhase
  rw [hlen]
  exact ⟨rfl, rfl⟩

/-- C9, witness for the amended statement: a 42µs elapsed time. -/
theorem c9_duration_in_range_succeeds_witness :
    (call (LoggingMiddleware.with_level_and_duration Level.info true) alwaysEnabled
        healthStart healthEnd42 healthState healthChain).result
      = Except.ok (healthState, healthResponse)
    ∧ (call (LoggingMiddleware.with_level_and_duration Level.info true) alwaysEnabled
        healthStart healthEnd42 healthState healthChain).logLines
      = [clfLine "203.0.113.5" (formatClfDate healthStart) "GET" "/health" "HTTP/1.1"
          200 12 (formatDuration (healthEnd42.epochMicros - healthStart.epochMicros))] :=
  c9_duration_in_range_succeeds (LoggingMiddleware.with_level_and_duration Level.info true)
    alwaysEnabled healthStart healthEnd42 healthState healthChain healthState
    healthResponse "203.0.113.5" 12 rfl rfl rfl rfl rfl (by decide) (by decide)

/-- C10: a negative elapsed microsecond count (wall clock reading an
earlier instant at the end than at the start) lands in the first tier
(`elapsed < 1000`) and is rendered as a negative integer microsecond
value, neither clamped to zero nor rejected: generally the rendering is
the signed decimal of the count, and concretely an elapsed time of -5µs
logs a line ending in ` - -5µs`. -/
theorem c10_negative_duration :
    (∀ m : Int, m < 0 →
        m < 1000
        ∧ formatDuration m = " - " ++ intToString m ++ "µs"
        ∧ intToString m = "-" ++ natToString m.natAbs)
    ∧ formatDuration (-5) = " - -5µs"
    ∧ (call (LoggingMiddleware.with_level_and_duration Level.info true) alwaysEnabled
        healthStart healthEndBack5 healthState healthChain).logLines
      = ["203.0.113.5 - - [10/Oct/2023:13:55:36 +0000] \"GET /health HTTP/1.1\" 200 12  - -5µs"] := by
  refine ⟨?_, by decide, by decide⟩
  intro m hm
  refine ⟨by omega, ?_, ?_⟩
  · unfold formatDuration
    rw [if_pos (by omega)]
  · cases m with
    | ofNat n => exact absurd hm (not_lt.mpr (Int.ofNat_nonneg n))
    | negSucc k => rfl

/-- C10, witness for the universally quantified part, at -7µs. -/
theorem c10_negative_duration_witness :
    (-7 : Int) < 1000
    ∧ formatDuration (-7) = " - " ++ intToString (-7) ++ "µs"
    ∧ intToString (-7) = "-" ++ natToString (Int.natAbs (-7)) :=
  c10_negative_duration.1 (-7) (by decide)

end GothamLogger
